import Mathlib

/-!
Verification of the arche backend's policy-guarded member resolvers
(src/plugins/nut/graphql/members.rs), the policy engine contract
(src/plugins/nut/dao/policy, via its call sites and the spec), and the
email worker (src/nut/workers.rs), over a shallow embedding.

Dates are modelled as integers (day numbers), datetimes as integers.
The relational store is a record of in-memory tables plus an `ok` flag:
`ok = false` models a storage-layer failure, under which every query of
the diesel layer returns an error.
-/

/-- Modelled from the spec: the closed role enumeration of
`plugins/nut/models::Role` (the file is not under src/); the spec names
`Admin`, `Manager` and "others". -/
inductive Role
| Admin
| Manager
| Member
deriving DecidableEq, Repr

/-- One row of the `policies` table (orm/mysql/schema.rs): a time-bounded
grant of a role to a user, optionally scoped to a resource type
(`resource = none` means the grant is global). `nbf`/`exp` are dates. -/
structure PolicyRow where
  id : Int
  user_id : Int
  role : Role
  resource : Option String
  nbf : Int
  exp : Int
deriving DecidableEq, Repr

/-- One row of the `members` table (orm/mysql/schema.rs). -/
structure MemberRow where
  id : Int
  nick_name : String
  real_name : String
  gender : String
  birthday : Int
  phone : Option String
  email : Option String
  address : Option String
  line : Option String
  wechat : Option String
  skype : Option String
  weibo : Option String
  facebook : Option String
  created_at : Int
  updated_at : Int
deriving DecidableEq, Repr

/-- The relational store. `ok = false` models a storage-layer error: every
query issued against the store fails. `today` is the current date as read
by the policy engine; `nextId` models the auto-increment id of `members`;
`queue` models the durable job queue (kind, payload bytes). -/
structure Db where
  ok : Bool
  today : Int
  members : List MemberRow
  policies : List PolicyRow
  queue : List (String × List Nat)
  nextId : Int
deriving DecidableEq, Repr

/-- The request context (graphql/context.rs): the store handle, the
authenticated principal (`none` when `current_user` fails), the current
datetime `Utc::now().naive_utc()`, and the external parsers: `parseDate`
models `NaiveDate::parse_from_str(_, utils::DATE_FORMAT)` (chrono) and
`parseId` models `str::parse::<i64>` (both standard-library/external
code, so they are carried as explicit collaborators). -/
structure Context where
  db : Db
  user : Option Int
  now : Int
  parseDate : String → Option Int
  parseId : String → Option Int

/-- A policy row is active today iff `nbf <= today <= exp`
(spec invariant; `can`/`is` filter on it). -/
def PolicyRow.activeAt (today : Int) (p : PolicyRow) : Prop :=
  p.nbf ≤ today ∧ today ≤ p.exp

instance (today : Int) (p : PolicyRow) : Decidable (p.activeAt today) := by
  unfold PolicyRow.activeAt; infer_instance

namespace policy_dao

/-- Modelled from the spec: `plugins/nut/dao/policy::can` (the file is not
under src/). True iff an active policy row exists for the principal whose
role equals the supplied role and whose resource type is either `none`
(global grant) or equals the supplied resource type. Its call sites in
members.rs use it directly as a `bool` condition, so a storage-layer
error cannot be propagated through its return value; it yields a denial. -/
def can (db : Db) (user : Int) (role : Role) (resource : Option String) : Bool :=
  if db.ok then
    db.policies.any fun p =>
      decide (p.user_id = user ∧ p.role = role ∧ p.activeAt db.today ∧
        (p.resource = none ∨ p.resource = resource))
  else false

/-- Modelled from the spec: `plugins/nut/dao/policy::is` (the file is not
under src/): the specialization of `can` with `resource_type = none`, so it
matches only active global grants of the role. -/
def is (db : Db) (user : Int) (role : Role) : Bool :=
  can db user role none

end policy_dao

/-- Modelled from the spec: `plugins/nut/caring::NAME`, the scoped resource
domain name of the caring-program plugin (the module is not under src/);
only its identity matters here. -/
def caringNAME : String := "caring"

/-- The error outcomes a resolver call can produce, tagged by source site:
`Validation` from `self.validate()`, `Parse` from `str::parse` /
`NaiveDate::parse_from_str`, `Unauthorized` from `ctx.current_user()`,
`Forbidden` from `Status::Forbidden.reason.into()`, `BadRequest` from
`Status::BadRequest.reason.into()`, `Db` from a failed store query. -/
inductive Err
| Validation
| Parse
| Unauthorized
| Forbidden
| BadRequest
| Db
deriving DecidableEq, Repr

/-- Modelled from the spec (§7 error taxonomy): which error outcomes are
rendered to the client as a bad-request style validation signal (malformed
input, unparseable date, duplicate unique field). -/
def Err.clientValidation : Err → Bool
| Err.Validation => true
| Err.Parse => true
| Err.BadRequest => true
| _ => false

/-- The `H` response value (`H::new()`): an empty hash, carrying no data. -/
structure H where
deriving DecidableEq, Repr

/-- members.rs `can_view`: iterates over the two alternatives
`(Admin, None)`, `(Manager, Some(caring::NAME))`, returning `Ok` on the
first one `policy_dao::can` satisfies, else a Forbidden error. -/
def can_view (db : Db) (user : Int) : Except Err Unit :=
  if policy_dao.can db user Role.Admin none then Except.ok ()
  else if policy_dao.can db user Role.Manager (some caringNAME) then Except.ok ()
  else Except.error Err.Forbidden

/-- members.rs `can_edit`: `Ok` iff `policy_dao::is(db, user, Admin)`,
else a Forbidden error. -/
def can_edit (db : Db) (user : Int) : Except Err Unit :=
  if policy_dao.is db user Role.Admin then Except.ok ()
  else Except.error Err.Forbidden

/-- Input of the member Remove mutation (members.rs). -/
structure Remove where
  id : String

/-- members.rs `Remove::call`: validate, parse the id, resolve the current
user, `can_edit`, then delete the rows whose id matches. Returns the
response paired with the resulting store (unchanged on every error path). -/
def Remove.call (self : Remove) (ctx : Context) : Except Err H × Db :=
  let db := ctx.db
  if ¬ (1 ≤ self.id.length) then (Except.error Err.Validation, db)
  else match ctx.parseId self.id with
  | none => (Except.error Err.Parse, db)
  | some id =>
    match ctx.user with
    | none => (Except.error Err.Unauthorized, db)
    | some uid =>
      match can_edit db uid with
      | Except.error e => (Except.error e, db)
      | Except.ok _ =>
        if db.ok then
          (Except.ok H.mk,
            { db with members := db.members.filter fun m => ¬ (m.id = id) })
        else (Except.error Err.Db, db)

/-- Input of the member Create mutation (members.rs). -/
structure Create where
  nick_name : String
  real_name : String
  gender : String
  birthday : String
  phone : Option String
  email : Option String
  address : Option String
  line : Option String
  wechat : Option String
  skype : Option String
  weibo : Option String
  facebook : Option String

/-- members.rs `Create::call`: validate, parse the birthday, resolve the
current user, `can_edit`, count rows with the same nick name (BadRequest
when positive), then insert the new row with `created_at = updated_at =
now` and the auto-increment id. -/
def Create.call (self : Create) (ctx : Context) : Except Err H × Db :=
  let db := ctx.db
  if ¬ (1 ≤ self.nick_name.length ∧ 1 ≤ self.real_name.length) then
    (Except.error Err.Validation, db)
  else match ctx.parseDate self.birthday with
  | none => (Except.error Err.Parse, db)
  | some birthday =>
    match ctx.user with
    | none => (Except.error Err.Unauthorized, db)
    | some uid =>
      match can_edit db uid with
      | Except.error e => (Except.error e, db)
      | Except.ok _ =>
        if db.ok then
          let cnt := (db.members.filter fun m => m.nick_name = self.nick_name).length
          if 0 < cnt then (Except.error Err.BadRequest, db)
          else
            (Except.ok H.mk,
              { db with
                members := db.members ++
                  [{ id := db.nextId
                     nick_name := self.nick_name
                     real_name := self.real_name
                     gender := self.gender
                     birthday := birthday
                     phone := self.phone
                     email := self.email
                     address := self.address
                     line := self.line
                     wechat := self.wechat
                     skype := self.skype
                     weibo := self.weibo
                     facebook := self.facebook
                     created_at := ctx.now
                     updated_at := ctx.now }]
                nextId := db.nextId + 1 })
        else (Except.error Err.Db, db)

/-- Input of the member Update mutation (members.rs). -/
structure Update where
  id : String
  real_name : String
  gender : String
  birthday : String
  phone : Option String
  email : Option String
  address : Option String
  line : Option String
  wechat : Option String
  skype : Option String
  weibo : Option String
  facebook : Option String

/-- members.rs `Update::call`: validate, parse the birthday and the id,
then set the listed columns and `updated_at` on the rows whose id matches.
The source performs no `current_user` resolution and no `can_edit` check
in this resolver. -/
def Update.call (self : Update) (ctx : Context) : Except Err H × Db :=
  let db := ctx.db
  if ¬ (1 ≤ self.id.length ∧ 1 ≤ self.real_name.length) then
    (Except.error Err.Validation, db)
  else match ctx.parseDate self.birthday with
  | none => (Except.error Err.Parse, db)
  | some birthday =>
    match ctx.parseId self.id with
    | none => (Except.error Err.Parse, db)
    | some id =>
      if db.ok then
        (Except.ok H.mk,
          { db with
            members := db.members.map fun m =>
              if m.id = id then
                { m with
                  real_name := self.real_name
                  gender := self.gender
                  birthday := birthday
                  phone := self.phone
                  email := self.email
                  address := self.address
                  line := self.line
                  wechat := self.wechat
                  skype := self.skype
                  weibo := self.weibo
                  facebook := self.facebook
                  updated_at := ctx.now }
              else m })
      else (Except.error Err.Db, db)

/-- workers.rs `Smtp`: the SMTP credential record held in the Setting
store under `site.smtp`. -/
structure Smtp where
  host : String
  port : Nat
  user : String
  password : String
deriving DecidableEq, Repr

/-- workers.rs `Email`: the typed email job payload; `attachments` maps a
file path to a display name. -/
structure Email where
  «to» : String
  subject : String
  body : String
  attachments : List (String × String)
deriving DecidableEq, Repr

/-- workers.rs `SEND_EMAIL`: the job kind of email work items. -/
def SEND_EMAIL : String := "send-email"

/-- Observable side effects of a worker execution: the debug log record of
dry-run mode, a read of the Setting store, an attachment file read, an SMTP
transmission, and the dispatcher's error log. `settingGet`, `fileRead` and
`smtpSend` are the external I/O. -/
inductive Effect
| logDebug («to» subject body : String)
| settingGet (key : String)
| fileRead (path : String)
| smtpSend (host «to» subject : String)
| logError (msg : String)
deriving DecidableEq, Repr

/-- Which effects touch the outside world (network or Setting store);
the dry-run contract forbids exactly these. -/
def Effect.external : Effect → Bool
| Effect.settingGet _ => true
| Effect.fileRead _ => true
| Effect.smtpSend _ _ _ => true
| _ => false

/-- Failure outcomes of an email job execution: payload deserialization
failure, a Setting-store read failure, an unreadable attachment, an SMTP
connection or transmission failure. -/
inductive WErr
| Decode
| Setting
| Attach
| Smtp
deriving DecidableEq, Repr

/-- The worker's external collaborators: the serde payload decoder, the
Setting store (`none` models a missing key or decryption failure), the
filesystem readability of an attachment path, SMTP host reachability and
transport success. -/
structure WorkerEnv where
  decode : List Nat → Option Email
  getSetting : String → Option Smtp
  attachOk : String → Bool
  smtpConnectOk : String → Bool
  smtpSendOk : Bool

/-- workers.rs `send_email` (on `Consumer`): deserialize the payload; in
dry-run mode (`perform = false`) emit the debug log record and return `Ok`
before any external I/O; otherwise read `site.smtp` from the Setting
store, attach each file (fallible), build and send the message over SMTP.
Returns the result paired with the trace of effects, in order. -/
def send_email (env : WorkerEnv) (payload : List Nat) (perform : Bool) :
    Except WErr Unit × List Effect :=
  match env.decode payload with
  | none => (Except.error WErr.Decode, [])
  | some it =>
    if ¬ perform then
      (Except.ok (), [Effect.logDebug it.«to» it.subject it.body])
    else
      match env.getSetting "site.smtp" with
      | none => (Except.error WErr.Setting, [Effect.settingGet "site.smtp"])
      | some smtp =>
        let reads := it.attachments.map fun a => Effect.fileRead a.1
        if it.attachments.all fun a => env.attachOk a.1 then
          if env.smtpConnectOk smtp.host then
            if env.smtpSendOk then
              (Except.ok (),
                Effect.settingGet "site.smtp" :: reads ++
                  [Effect.smtpSend smtp.host it.«to» it.subject])
            else (Except.error WErr.Smtp, Effect.settingGet "site.smtp" :: reads)
          else (Except.error WErr.Smtp, Effect.settingGet "site.smtp" :: reads)
        else (Except.error WErr.Attach, Effect.settingGet "site.smtp" :: reads)

/-- Terminal states of the dispatcher's per-message state machine. -/
inductive Outcome
| Acked
| NackedRequeued
| NackedDropped
deriving DecidableEq, Repr

/-- Modelled from the spec: the worker dispatcher (its routing loop is not
under src/). It routes a message by `kind` to the handler; on success the
message is acked; a payload that fails to decode is a poison message,
logged and dropped (never requeued); any other execution failure is
transient and nacked for broker redelivery. -/
def dispatch (env : WorkerEnv) (kind : String) (payload : List Nat)
    (perform : Bool) : Outcome × List Effect :=
  if kind = SEND_EMAIL then
    match send_email env payload perform with
    | (Except.ok _, eff) => (Outcome.Acked, eff)
    | (Except.error WErr.Decode, eff) =>
      (Outcome.NackedDropped, eff ++ [Effect.logError "undecodable payload"])
    | (Except.error _, eff) => (Outcome.NackedRequeued, eff)
  else (Outcome.NackedDropped, [Effect.logError "unknown kind"])

/-- Sample store for the C2 witness: one expired and one future-dated
global Admin grant for principal 9, with `today = 100`. -/
def dbWindow : Db :=
  { ok := true, today := 100, members := [],
    policies := [{ id := 1, user_id := 9, role := Role.Admin,
                   resource := none, nbf := 0, exp := 50 },
                 { id := 2, user_id := 9, role := Role.Admin,
                   resource := none, nbf := 150, exp := 200 }],
    queue := [], nextId := 1 }

/-- Sample store for the C3 witness: one active global Admin grant for
principal 5. -/
def dbGlobal : Db :=
  { ok := true, today := 100, members := [],
    policies := [{ id := 1, user_id := 5, role := Role.Admin,
                   resource := none, nbf := 10, exp := 300 }],
    queue := [], nextId := 1 }

/-- Sample store for the C4 witness: no policies at all. -/
def dbEmpty : Db :=
  { ok := true, today := 100, members := [], policies := [],
    queue := [], nextId := 1 }

/-- Sample store for C5: the storage layer is in the error state
(`ok = false`) while holding an otherwise active global Admin grant for
principal 7. -/
def dbBroken : Db :=
  { ok := false, today := 100, members := [],
    policies := [{ id := 1, user_id := 7, role := Role.Admin,
                   resource := none, nbf := 0, exp := 1000 }],
    queue := [], nextId := 1 }

/-- Sample member row with id 1. -/
def aliceRow : MemberRow :=
  { id := 1, nick_name := "alice", real_name := "Alice", gender := "f",
    birthday := 0, phone := none, email := none, address := none,
    line := none, wechat := none, skype := none, weibo := none,
    facebook := none, created_at := 0, updated_at := 0 }

/-- Sample Update input addressing member 1. -/
def updIntruder : Update :=
  { id := "1", real_name := "intruder", gender := "x",
    birthday := "2000-01-01", phone := none, email := none, address := none,
    line := none, wechat := none, skype := none, weibo := none,
    facebook := none }

/-- Sample context for C1: the store holds member 1 and an empty policy
table, and no principal is authenticated at all (`user = none`). -/
def ctxNoAuth : Context :=
  { db := { ok := true, today := 100, members := [aliceRow], policies := [],
            queue := [], nextId := 2 },
    user := none, now := 55,
    parseDate := fun s => if s = "2000-01-01" then some 10957 else none,
    parseId := fun s => if s = "1" then some 1 else none }

/-- Sample email payload record. -/
def emailHi : Email :=
  { «to» := "a@example.com", subject := "Hi", body := "<p>Hi</p>",
    attachments := [] }

/-- Worker environment whose decoder accepts every payload as `emailHi`. -/
def envDecodeOk : WorkerEnv :=
  { decode := fun _ => some emailHi, getSetting := fun _ => none,
    attachOk := fun _ => true, smtpConnectOk := fun _ => true,
    smtpSendOk := true }

/-- Worker environment whose decoder rejects every payload. -/
def envDecodeFail : WorkerEnv :=
  { decode := fun _ => none,
    getSetting := fun _ => some { host := "smtp.example.com", port := 25,
                                  user := "u", password := "p" },
    attachOk := fun _ => true, smtpConnectOk := fun _ => true,
    smtpSendOk := true }

/-- Sample Remove input addressing member 1. -/
def remOne : Remove := { id := "1" }

/-- Sample context for C8, allow branch: principal 7 holds an active
global Admin grant (`nbf 0, exp 365, today 100`). -/
def ctxAdminActive : Context :=
  { db := { ok := true, today := 100, members := [aliceRow],
            policies := [{ id := 1, user_id := 7, role := Role.Admin,
                           resource := none, nbf := 0, exp := 365 }],
            queue := [], nextId := 2 },
    user := some 7, now := 5,
    parseDate := fun _ => none,
    parseId := fun s => if s = "1" then some 1 else none }

/-- Sample context for C8, deny branch: principal 7's only Admin grant is
expired (`exp 50 < today 100`). -/
def ctxAdminExpired : Context :=
  { db := { ok := true, today := 100, members := [aliceRow],
            policies := [{ id := 1, user_id := 7, role := Role.Admin,
                           resource := none, nbf := 0, exp := 50 }],
            queue := [], nextId := 2 },
    user := some 7, now := 5,
    parseDate := fun _ => none,
    parseId := fun s => if s = "1" then some 1 else none }

/-- Sample Create input whose nick name duplicates `aliceRow`. -/
def createDup : Create :=
  { nick_name := "alice", real_name := "Bob", gender := "m",
    birthday := "2001-02-03", phone := none, email := none, address := none,
    line := none, wechat := none, skype := none, weibo := none,
    facebook := none }

/-- Sample Create input whose birthday string does not parse. -/
def createBadDate : Create :=
  { nick_name := "carol", real_name := "Carol", gender := "f",
    birthday := "03/02/2001", phone := none, email := none, address := none,
    line := none, wechat := none, skype := none, weibo := none,
    facebook := none }

/-- Sample context for C9: member `aliceRow` exists and principal 7 holds
an active global Admin grant; the date parser accepts only the ISO form. -/
def ctxCreate : Context :=
  { db := { ok := true, today := 100, members := [aliceRow],
            policies := [{ id := 1, user_id := 7, role := Role.Admin,
                           resource := none, nbf := 0, exp := 365 }],
            queue := [], nextId := 5 },
    user := some 7, now := 9,
    parseDate := fun s => if s = "2001-02-03" then some 11356 else none,
    parseId := fun _ => none }

/-- Second sample member row, with id 2. -/
def bobRow : MemberRow :=
  { id := 2, nick_name := "bob", real_name := "Bob", gender := "m",
    birthday := 3, phone := none, email := none, address := none,
    line := none, wechat := none, skype := none, weibo := none,
    facebook := none, created_at := 1, updated_at := 1 }

/-- Sample Update input for C10, addressing member 1. -/
def updFrame : Update :=
  { id := "1", real_name := "Alicia", gender := "f",
    birthday := "2000-01-01", phone := some "123", email := none,
    address := none, line := none, wechat := none, skype := none,
    weibo := none, facebook := none }

/-- Sample context for C10: two member rows with ids 1 and 2. -/
def ctxTwo : Context :=
  { db := { ok := true, today := 100, members := [aliceRow, bobRow],
            policies := [], queue := [], nextId := 3 },
    user := some 7, now := 77,
    parseDate := fun s => if s = "2000-01-01" then some 10957 else none,
    parseId := fun s => if s = "1" then some 1 else none }

/-- Unfolding lemma for the policy engine: `can` is true iff the store is
readable and an active matching row exists. -/
lemma can_eq_true_iff (db : Db) (u : Int) (r : Role) (rty : Option String) :
    policy_dao.can db u r rty = true ↔
      (db.ok = true ∧ ∃ p ∈ db.policies, p.user_id = u ∧ p.role = r ∧
        p.activeAt db.today ∧ (p.resource = none ∨ p.resource = rty)) := by
  unfold policy_dao.can
  cases hok : db.ok with
  | false => simp
  | true => simp [List.any_eq_true]

/-- Claim C2: when every policy row's validity window excludes the current
date (`exp < today` or `today < nbf`), `can` and `is` return false for the
principal, regardless of role and resource-type match. -/
theorem policy_window_excludes_denies (db : Db) (u : Int) (r : Role)
    (rty : Option String)
    (h : ∀ p ∈ db.policies, p.exp < db.today ∨ db.today < p.nbf) :
    policy_dao.can db u r rty = false ∧ policy_dao.is db u r = false := by
  have key : ∀ rt, policy_dao.can db u r rt = false := by
    intro rt
    cases hc : policy_dao.can db u r rt with
    | false => rfl
    | true =>
      rcases (can_eq_true_iff db u r rt).mp hc with ⟨-, p, hp, -, -, hact, -⟩
      rcases h p hp with h1 | h1
      · exact absurd hact.2 (not_le.mpr h1)
      · exact absurd hact.1 (not_le.mpr h1)
  exact ⟨key rty, key none⟩

/-- Witness for C2: the store `dbWindow`, holding one expired and one
future-dated Admin grant for principal 9, denies both checks. -/
theorem policy_window_excludes_denies_witness :
    policy_dao.can dbWindow 9 Role.Admin none = false ∧
    policy_dao.is dbWindow 9 Role.Admin = false :=
  policy_window_excludes_denies dbWindow 9 Role.Admin none (by decide)

/-- Claim C3: `is` returns true only when an active policy row with
`resource = none` exists for that principal and role, and whenever it does,
`can` is also true for every supplied resource type, so `is` is narrower
than `can`. -/
theorem is_requires_global_active (db : Db) (u : Int) (r : Role)
    (h : policy_dao.is db u r = true) :
    (∃ p ∈ db.policies, p.user_id = u ∧ p.role = r ∧
      p.activeAt db.today ∧ p.resource = none)
    ∧ ∀ rty, policy_dao.can db u r rty = true := by
  have h' := (can_eq_true_iff db u r none).mp h
  rcases h' with ⟨hok, p, hp, h1, h2, hact, hres⟩
  have hres' : p.resource = none := by rcases hres with h | h <;> exact h
  refine ⟨⟨p, hp, h1, h2, hact, hres'⟩, ?_⟩
  intro rty
  exact (can_eq_true_iff db u r rty).mpr ⟨hok, p, hp, h1, h2, hact, Or.inl hres'⟩

/-- Witness for C3: the store `dbGlobal`, with an active global Admin
grant, satisfies the conclusion for principal 5. -/
theorem is_requires_global_active_witness :
    (∃ p ∈ dbGlobal.policies, p.user_id = 5 ∧ p.role = Role.Admin ∧
      p.activeAt dbGlobal.today ∧ p.resource = none)
    ∧ ∀ rty, policy_dao.can dbGlobal 5 Role.Admin rty = true :=
  is_requires_global_active dbGlobal 5 Role.Admin (by decide)

/-- Claim C4: `can_view` succeeds iff `can(user, Admin, None)` or
`can(user, Manager, Some(caring::NAME))` holds, and when it does not
succeed it returns the Forbidden error. -/
theorem can_view_disjunction (db : Db) (u : Int) :
    (can_view db u = Except.ok () ↔
      (policy_dao.can db u Role.Admin none = true ∨
        policy_dao.can db u Role.Manager (some caringNAME) = true))
    ∧ (can_view db u ≠ Except.ok () →
        can_view db u = Except.error Err.Forbidden) := by
  unfold can_view
  cases h1 : policy_dao.can db u Role.Admin none <;>
    cases h2 : policy_dao.can db u Role.Manager (some caringNAME) <;> simp

/-- Witness for C4: on the store `dbEmpty` with no policies, principal 11
is refused with the Forbidden error. -/
theorem can_view_disjunction_witness :
    can_view dbEmpty 11 = Except.error Err.Forbidden :=
  (can_view_disjunction dbEmpty 11).2 (by simp [can_view, policy_dao.can, dbEmpty])

/-- Counterexample for C5: on the store `dbBroken`, which is in the
storage-error state yet holds an otherwise active matching Admin row,
`can` answers with the boolean `false` (a silent denial) instead of
propagating an error to the caller, so the claim as stated is false. -/
theorem can_storage_error_boolean :
    policy_dao.can dbBroken 7 Role.Admin none = false ∧
    dbBroken.ok = false ∧
    (∃ p ∈ dbBroken.policies, p.user_id = 7 ∧ p.role = Role.Admin ∧
      p.activeAt dbBroken.today ∧ p.resource = none) := by decide

/-- Claim C5 as amended: `can` returns a plain boolean at its call sites,
so a storage-layer error cannot be propagated through its return value;
on a storage-layer error both `can` and `is` deny, returning false. -/
theorem can_storage_error_denies (db : Db) (u : Int) (r : Role)
    (rty : Option String) (h : db.ok = false) :
    policy_dao.can db u r rty = false ∧ policy_dao.is db u r = false := by
  unfold policy_dao.is policy_dao.can
  simp [h]

/-- Witness for the amended C5, on the store `dbBroken`. -/
theorem can_storage_error_denies_witness :
    policy_dao.can dbBroken 7 Role.Admin none = false ∧
    policy_dao.is dbBroken 7 Role.Admin = false :=
  can_storage_error_denies dbBroken 7 Role.Admin none rfl

/-- Claim C1 is violated by the code: in the context `ctxNoAuth`, with an
empty policy table and no authenticated principal, `Update::call` still
returns `Ok` and mutates the addressed member row — the source of
`Update::call` performs no `current_user` resolution and no authorization
check before the row update, unlike `Create::call` and `Remove::call`. -/
theorem update_call_mutates_without_authorization :
    (Update.call updIntruder ctxNoAuth).1 = Except.ok H.mk ∧
    (Update.call updIntruder ctxNoAuth).2.members.map
        (fun m => m.real_name) = ["intruder"] ∧
    ctxNoAuth.user = none ∧
    ctxNoAuth.db.policies = [] ∧
    ctxNoAuth.db.members.map (fun m => m.real_name) = ["Alice"] := by
  refine ⟨rfl, ?_, rfl, rfl, rfl⟩
  decide

/-- Claim C6: with `perform = false`, `send_email` on a decodable payload
returns `Ok`, its only effect is the debug log record carrying the
recipient, subject and body, and in particular no effect in its trace is
external I/O (no Setting-store read, no file read, no SMTP traffic). -/
theorem send_email_dry_run (env : WorkerEnv) (payload : List Nat)
    (it : Email) (h : env.decode payload = some it) :
    send_email env payload false =
      (Except.ok (), [Effect.logDebug it.«to» it.subject it.body]) ∧
    ∀ e ∈ (send_email env payload false).2, e.external = false := by
  have hs : send_email env payload false =
      (Except.ok (), [Effect.logDebug it.«to» it.subject it.body]) := by
    unfold send_email
    rw [h]
    simp
  refine ⟨hs, ?_⟩
  rw [hs]
  intro e he
  simp at he
  subst he
  rfl

/-- Witness for C6: a concrete dry-run execution logs the recipient and
subject of `emailHi` and performs no external I/O. -/
theorem send_email_dry_run_witness :
    send_email envDecodeOk [1, 2, 3] false =
      (Except.ok (),
        [Effect.logDebug emailHi.«to» emailHi.subject emailHi.body]) ∧
    ∀ e ∈ (send_email envDecodeOk [1, 2, 3] false).2, e.external = false :=
  send_email_dry_run envDecodeOk [1, 2, 3] emailHi rfl

/-- Claim C7: on a payload that does not decode, `send_email` (for either
value of `perform`) returns the decode error with an empty effect trace,
and the dispatcher transitions the message to Nacked-Dropped with a logged
error — it is neither requeued nor acked. -/
theorem send_email_poison_dropped (env : WorkerEnv) (payload : List Nat)
    (perform : Bool) (h : env.decode payload = none) :
    send_email env payload perform = (Except.error WErr.Decode, []) ∧
    dispatch env SEND_EMAIL payload perform =
      (Outcome.NackedDropped, [Effect.logError "undecodable payload"]) := by
  have hs : send_email env payload perform =
      (Except.error WErr.Decode, []) := by
    unfold send_email
    rw [h]
  refine ⟨hs, ?_⟩
  unfold dispatch
  rw [if_pos rfl, hs]
  rfl

/-- Witness for C7: a concrete undecodable payload is dropped with a
logged error. -/
theorem send_email_poison_dropped_witness :
    send_email envDecodeFail [255] true = (Except.error WErr.Decode, []) ∧
    dispatch envDecodeFail SEND_EMAIL [255] true =
      (Outcome.NackedDropped, [Effect.logError "undecodable payload"]) :=
  send_email_poison_dropped envDecodeFail [255] true rfl

/-- Claim C8: under a well-formed request (valid id, authenticated
principal, readable store), `Remove::call` deletes the addressed member
rows exactly when `can_edit` passes, i.e. when the principal satisfies
`policy_dao::is(_, Admin)`; when the check fails it returns the Forbidden
error and the store is unchanged. -/
theorem remove_call_guard (self : Remove) (ctx : Context) (i uid : Int)
    (hv : 1 ≤ self.id.length) (hp : ctx.parseId self.id = some i)
    (hu : ctx.user = some uid) (hok : ctx.db.ok = true) :
    (policy_dao.is ctx.db uid Role.Admin = true →
      Remove.call self ctx =
        (Except.ok H.mk,
          { ctx.db with
            members := ctx.db.members.filter fun m => ¬ (m.id = i) }))
    ∧ (policy_dao.is ctx.db uid Role.Admin = false →
      Remove.call self ctx = (Except.error Err.Forbidden, ctx.db)) := by
  constructor <;> intro h <;>
    simp [Remove.call, can_edit, hv, hp, hu, hok, h]

/-- Witness for C8, realizing the spec's end-to-end scenario: with an
active Admin grant the row is deleted; with only an expired Admin grant
the call is denied and the store is unchanged. -/
theorem remove_call_guard_witness :
    Remove.call remOne ctxAdminActive =
      (Except.ok H.mk,
        { ctxAdminActive.db with
          members := ctxAdminActive.db.members.filter fun m => ¬ (m.id = 1) })
    ∧ Remove.call remOne ctxAdminExpired =
      (Except.error Err.Forbidden, ctxAdminExpired.db) :=
  ⟨(remove_call_guard remOne ctxAdminActive 1 7 (by decide) rfl rfl rfl).1
      (by decide),
   (remove_call_guard remOne ctxAdminExpired 1 7 (by decide) rfl rfl rfl).2
      (by decide)⟩

/-- Claim C9: `Create::call` returns a client-facing validation error and
leaves the store (members and queue alike) unchanged when the birthday
string fails to parse, and likewise when the supplied nick name already
exists in the members table. -/
theorem create_call_validation (self : Create) (ctx : Context) :
    (1 ≤ self.nick_name.length → 1 ≤ self.real_name.length →
      ctx.parseDate self.birthday = none →
      Create.call self ctx = (Except.error Err.Parse, ctx.db) ∧
      Err.clientValidation Err.Parse = true)
    ∧ (∀ uid bd, 1 ≤ self.nick_name.length → 1 ≤ self.real_name.length →
      ctx.parseDate self.birthday = some bd → ctx.user = some uid →
      policy_dao.is ctx.db uid Role.Admin = true → ctx.db.ok = true →
      (∃ m ∈ ctx.db.members, m.nick_name = self.nick_name) →
      Create.call self ctx = (Except.error Err.BadRequest, ctx.db) ∧
      Err.clientValidation Err.BadRequest = true) := by
  constructor
  · intro h1 h2 h3
    refine ⟨?_, rfl⟩
    simp [Create.call, h1, h2, h3]
  · intro uid bd h1 h2 h3 h4 h5 h6 h7
    refine ⟨?_, rfl⟩
    have hcnt : 0 <
        (ctx.db.members.filter fun m => m.nick_name = self.nick_name).length := by
      rw [List.length_pos]
      intro hnil
      rcases h7 with ⟨m, hm, hnick⟩
      have := (List.filter_eq_nil_iff.mp hnil) m hm
      simp [hnick] at this
    simp [Create.call, can_edit, h1, h2, h3, h4, h5, h6, hcnt]

/-- Witness for C9: the concrete unparseable-date and duplicate-nick-name
inputs are both rejected with the store unchanged. -/
theorem create_call_validation_witness :
    (Create.call createBadDate ctxCreate =
        (Except.error Err.Parse, ctxCreate.db) ∧
      Err.clientValidation Err.Parse = true)
    ∧ (Create.call createDup ctxCreate =
        (Except.error Err.BadRequest, ctxCreate.db) ∧
      Err.clientValidation Err.BadRequest = true) :=
  ⟨(create_call_validation createBadDate ctxCreate).1
      (by decide) (by decide) (by decide),
   (create_call_validation createDup ctxCreate).2 7 11356
      (by decide) (by decide) (by decide) rfl (by decide) rfl (by decide)⟩

/-- Claim C10: under a well-formed request, `Update::call` succeeds and
touches only the members table: the queue and policies are unchanged, the
number of member rows is unchanged, every resulting row stems from a
stored row with the same id, nick name and creation time, rows whose id
differs from the addressed one are returned unchanged, and the addressed
row changes exactly the listed fields and `updated_at`. -/
theorem update_call_frame (self : Update) (ctx : Context) (i bd : Int)
    (hv1 : 1 ≤ self.id.length) (hv2 : 1 ≤ self.real_name.length)
    (hb : ctx.parseDate self.birthday = some bd)
    (hp : ctx.parseId self.id = some i) (hok : ctx.db.ok = true) :
    (Update.call self ctx).1 = Except.ok H.mk ∧
    (Update.call self ctx).2.queue = ctx.db.queue ∧
    (Update.call self ctx).2.policies = ctx.db.policies ∧
    (Update.call self ctx).2.members.length = ctx.db.members.length ∧
    ∀ m' ∈ (Update.call self ctx).2.members, ∃ m ∈ ctx.db.members,
      m'.id = m.id ∧ m'.nick_name = m.nick_name ∧
      m'.created_at = m.created_at ∧
      (¬ m.id = i → m' = m) ∧
      (m.id = i → m' =
        { m with
          real_name := self.real_name
          gender := self.gender
          birthday := bd
          phone := self.phone
          email := self.email
          address := self.address
          line := self.line
          wechat := self.wechat
          skype := self.skype
          weibo := self.weibo
          facebook := self.facebook
          updated_at := ctx.now }) := by
  have heq : Update.call self ctx =
      (Except.ok H.mk,
        { ctx.db with
          members := ctx.db.members.map fun m =>
            if m.id = i then
              { m with
                real_name := self.real_name
                gender := self.gender
                birthday := bd
                phone := self.phone
                email := self.email
                address := self.address
                line := self.line
                wechat := self.wechat
                skype := self.skype
                weibo := self.weibo
                facebook := self.facebook
                updated_at := ctx.now }
            else m }) := by
    simp [Update.call, hv1, hv2, hb, hp, hok]
  rw [heq]
  refine ⟨rfl, rfl, rfl, by simp, ?_⟩
  intro m' hm'
  rw [List.mem_map] at hm'
  obtain ⟨m, hm, rfl⟩ := hm'
  by_cases hid : m.id = i
  · exact ⟨m, hm, by simp [hid], by simp [hid], by simp [hid],
      fun hc => absurd hid hc, fun _ => by simp [hid]⟩
  · exact ⟨m, hm, by simp [hid], by simp [hid], by simp [hid],
      fun _ => by simp [hid], fun hc => absurd hc hid⟩

/-- Witness for C10: a concrete update of member 1 among two stored rows
succeeds, keeps both rows, and leaves the second row unchanged. -/
theorem update_call_frame_witness :
    (Update.call updFrame ctxTwo).1 = Except.ok H.mk ∧
    (Update.call updFrame ctxTwo).2.members.length =
      ctxTwo.db.members.length := by
  obtain ⟨h1, -, -, h4, -⟩ :=
    update_call_frame updFrame ctxTwo 1 10957 (by decide) (by decide)
      (by decide) (by decide) rfl
  exact ⟨h1, h4⟩
